import Mathlib

/-!
Verification of the batch-renderer factory of the pixi.js batching engine
(`src/packages/core/src/batch/BatchRendererFactory.js`) and, where the
surrounding modules are not part of the given sources, of the batching
engine behaviour described by the specification.

Conventions of the shallow embedding:
* JavaScript property presence is modelled by `JSProp`: a key can be
  absent from the options object, present with the value `undefined`, or
  present with a real value.  `Object.assign` followed by destructuring
  is `jsAssign`.
* Shader sources are opaque strings.  A fragment *template* is a string
  that contains placeholder tokens; it is modelled as its decomposition
  into literal segments and placeholder occurrences (`Tok`), with
  `litText`/`expand` producing the flat string.
* Object identity of the renderer prototype is modelled by `ProtoRef`
  (the JavaScript `BatchPlugin.prototype = BaseBatchRenderer.prototype`
  on line 62 is a reference assignment, not a copy).
-/

/-- A segment of a fragment shader template: a literal piece of source
text, the texture-unit-count placeholder (the literal token used by the
shader generator to size the sampler array), or the per-unit loop
placeholder. -/
inductive Tok where
  | lit (s : String)
  | countPh
  | loopPh
deriving DecidableEq, BEq

/-- A fragment shader template, as the alternation of literal text and
placeholder occurrences. -/
abbrev FragTemplate := List Tok

/-- Concatenation of a list of strings. -/
def strConcat : List String → String
  | [] => ""
  | s :: rest => s ++ strConcat rest

/-- The literal text of a template, placeholders contributing nothing. -/
def litText (tpl : FragTemplate) : String :=
  strConcat (tpl.map (fun t => match t with
    | Tok.lit s => s
    | Tok.countPh => ""
    | Tok.loopPh => ""))

/-- Modelled from the spec: the per-unit conditional code block produced
by the Shader Program Template Expander for texture unit index `i`
("if selected-unit == i then sample sampler[i]"); the expander module
(`BatchShaderGenerator`) is not among the given sources. -/
def perUnitBlock (i : Nat) : String :=
  "if(vTextureId == " ++ toString i ++ ".0) color = texture2D(uSamplers["
    ++ toString i ++ "], vTextureCoord);\n"

/-- Modelled from the spec: the loop placeholder is replaced by one
conditional block per texture unit, for unit indices 0 .. k-1 in
ascending order. -/
def loopBody (k : Nat) : String :=
  strConcat ((List.range k).map perUnitBlock)

/-- Modelled from the spec: expansion of a single template segment for a
texture-unit count `k`: literals pass through, the count placeholder
becomes the decimal literal of `k`, the loop placeholder becomes the
per-unit blocks. -/
def expandTok (k : Nat) : Tok → String
  | Tok.lit s => s
  | Tok.countPh => toString k
  | Tok.loopPh => loopBody k

/-- Modelled from the spec: `expand(fragmentTemplate, maxTextureUnits)`,
the pure string transformation of the Shader Program Template Expander. -/
def expand (tpl : FragTemplate) (k : Nat) : String :=
  strConcat (tpl.map (expandTok k))

/-- Modelled from the spec: the built-in default vertex shader source
(`texture.vert`, imported on line 5 of the factory but not among the
given sources).  An opaque string; only its identity matters. -/
def defaultVertex : String :=
  "attribute vec2 aVertexPosition;\nattribute vec2 aTextureCoord;\nattribute vec4 aColor;\nattribute float aTextureId;\nuniform mat3 projectionMatrix;\nvarying vec2 vTextureCoord;\nvarying vec4 vColor;\nvarying float vTextureId;\nvoid main(void)\x7bgl_Position = vec4((projectionMatrix * vec3(aVertexPosition, 1.0)).xy, 0.0, 1.0); vTextureCoord = aTextureCoord; vTextureId = aTextureId; vColor = aColor;\x7d\n"

/-- Modelled from the spec: the built-in default fragment shader template
(`texture.frag`, imported on line 6 of the factory but not among the
given sources).  It contains exactly one count placeholder (sizing the
sampler array) and exactly one loop placeholder. -/
def defaultFragment : FragTemplate :=
  [Tok.lit "varying vec2 vTextureCoord;\nvarying vec4 vColor;\nvarying float vTextureId;\nuniform sampler2D uSamplers[",
   Tok.countPh,
   Tok.lit "];\n\nvoid main(void)\x7b\nvec4 color;\n",
   Tok.loopPh,
   Tok.lit "\ngl_FragColor = color * vColor;\n\x7d\n"]

/-- A geometry layout class.  `batchGeometry` is the standard
`BatchGeometry` class (interleaved position, UV, packed colour and
texture id, stride 6 words per the spec); `custom` is any user-supplied
layout with its stride. -/
inductive GeometryCls where
  | batchGeometry
  | custom (stride : Nat)
deriving DecidableEq, BEq

/-- Modelled from the spec: the vertex stride (in 32-bit words) expected
by a geometry layout; the standard layout has stride 6. -/
def strideOf : GeometryCls → Nat
  | GeometryCls.batchGeometry => 6
  | GeometryCls.custom s => s

/-- A JavaScript object property at the public interface: absent from
the object, present with value `undefined`, or present with a value. -/
inductive JSProp (α : Type) where
  | absent
  | undef
  | val (a : α)
deriving DecidableEq

/-- `Object.assign` of one key followed by destructuring: an absent key
keeps the default, a key present with `undefined` overrides the default
with `undefined` (`none`), a key present with a value overrides it with
that value. -/
def jsAssign {α : Type} (dflt : α) : JSProp α → Option α
  | JSProp.absent => some dflt
  | JSProp.undef => none
  | JSProp.val a => some a

/-- The options object accepted by `BatchRendererFactory.create`
(lines 47-52): keys `vertex`, `fragment`, `vertexSize`,
`geometryClass`, each of which may be absent, `undefined`, or a value. -/
structure CreateOptions where
  vertex : JSProp String
  fragment : JSProp FragTemplate
  vertexSize : JSProp Nat
  geometryClass : JSProp GeometryCls
deriving DecidableEq

/-- The `vertex` property of an optional options object (the `options`
argument itself may be omitted, in which case every key is absent). -/
def optVertex : Option CreateOptions → JSProp String
  | none => JSProp.absent
  | some c => c.vertex

/-- The `fragment` property of an optional options object. -/
def optFragment : Option CreateOptions → JSProp FragTemplate
  | none => JSProp.absent
  | some c => c.fragment

/-- The `vertexSize` property of an optional options object. -/
def optVertexSize : Option CreateOptions → JSProp Nat
  | none => JSProp.absent
  | some c => c.vertexSize

/-- The `geometryClass` property of an optional options object. -/
def optGeometryClass : Option CreateOptions → JSProp GeometryCls
  | none => JSProp.absent
  | some c => c.geometryClass

/-- Identity of a prototype object: either the shared
`BaseBatchRenderer.prototype` object, or a fresh object. -/
inductive ProtoRef where
  | baseBatchRendererProto
  | fresh (id : Nat)
deriving DecidableEq

/-- The constructor (`BatchPlugin`) returned by
`BatchRendererFactory.create`: it closes over the four configuration
values produced by the `Object.assign` on lines 47-52, and its
`prototype` is set on line 62. -/
structure BatchPluginCtor where
  vertex : Option String
  fragment : Option FragTemplate
  vertexSize : Option Nat
  geometryClass : Option GeometryCls
  prototypeRef : ProtoRef
deriving DecidableEq

namespace BatchRendererFactory

/-- `BatchRendererFactory.create(options)` (lines 45-65): merges the
options over the defaults with `Object.assign`, defines the
`BatchPlugin` constructor closing over the merged values, aliases its
prototype to `BaseBatchRenderer.prototype` (line 62, a reference
assignment), and returns it. -/
def create (options : Option CreateOptions) : BatchPluginCtor :=
  { vertex := jsAssign defaultVertex (optVertex options)
  , fragment := jsAssign defaultFragment (optFragment options)
  , vertexSize := jsAssign 6 (optVertexSize options)
  , geometryClass := jsAssign GeometryCls.batchGeometry (optGeometryClass options)
  , prototypeRef := ProtoRef.baseBatchRendererProto }

/-- The static getter `defaultVertexSrc` (lines 74-77): returns the
module-level `defaultVertex` constant; there is no setter. -/
def defaultVertexSrc : String := defaultVertex

/-- The static getter `defaultFragmentTemplate` (lines 86-89): returns
the module-level `defaultFragment` constant; there is no setter. -/
def defaultFragmentTemplate : FragTemplate := defaultFragment

end BatchRendererFactory

/-- The module-level export `BatchRenderer` (line 94):
`BatchRendererFactory.create()` with no argument. -/
def BatchRenderer : BatchPluginCtor := BatchRendererFactory.create none

/-- The mutable contents of the shared `BaseBatchRenderer.prototype`
object, threaded explicitly to express that `create` never writes to
it: the body of `create` only defines `BatchPlugin` and assigns
`BatchPlugin.prototype` by reference. -/
structure World where
  basePrototypeProps : List String
deriving DecidableEq

/-- `create` as a state transformer over the shared prototype contents:
it returns the constructor and leaves the shared prototype untouched. -/
def createW (options : Option CreateOptions) (w : World) : BatchPluginCtor × World :=
  (BatchRendererFactory.create options, w)

/-- The graphics-device handle: exposes `maxTextureUnits`, queried once
at engine construction. -/
structure Renderer where
  maxTextureUnits : Nat
deriving DecidableEq

/-- Claim C1: when an option key is absent `create` uses its documented
default (the built-in default vertex source, the built-in default
fragment template, 6 for `vertexSize`, `BatchGeometry` for
`geometryClass`), and a present option value replaces exactly its own
default. -/
theorem create_uses_documented_defaults (o : Option CreateOptions) :
    (optVertex o = JSProp.absent → (BatchRendererFactory.create o).vertex = some defaultVertex)
    ∧ (optFragment o = JSProp.absent → (BatchRendererFactory.create o).fragment = some defaultFragment)
    ∧ (optVertexSize o = JSProp.absent → (BatchRendererFactory.create o).vertexSize = some 6)
    ∧ (optGeometryClass o = JSProp.absent → (BatchRendererFactory.create o).geometryClass = some GeometryCls.batchGeometry)
    ∧ (∀ v, optVertex o = JSProp.val v → (BatchRendererFactory.create o).vertex = some v)
    ∧ (∀ f, optFragment o = JSProp.val f → (BatchRendererFactory.create o).fragment = some f)
    ∧ (∀ n, optVertexSize o = JSProp.val n → (BatchRendererFactory.create o).vertexSize = some n)
    ∧ (∀ g, optGeometryClass o = JSProp.val g → (BatchRendererFactory.create o).geometryClass = some g) := by
  refine ⟨?_, ?_, ?_, ?_, ?_, ?_, ?_, ?_⟩ <;>
    first
      | (intro h; simp [BatchRendererFactory.create, h, jsAssign])
      | (intro x h; simp [BatchRendererFactory.create, h, jsAssign])

/-- Witness for C1 at a concrete options object that supplies `vertex`
and omits the other keys. -/
theorem create_uses_documented_defaults_witness :
    (BatchRendererFactory.create (some { vertex := JSProp.val "V", fragment := JSProp.absent, vertexSize := JSProp.absent, geometryClass := JSProp.absent })).vertex = some "V"
    ∧ (BatchRendererFactory.create (some { vertex := JSProp.val "V", fragment := JSProp.absent, vertexSize := JSProp.absent, geometryClass := JSProp.absent })).vertexSize = some 6 :=
  ⟨(create_uses_documented_defaults _).2.2.2.2.1 "V" rfl,
   (create_uses_documented_defaults _).2.2.1 rfl⟩

/-- Claim C4: the static getters `defaultVertexSrc` and
`defaultFragmentTemplate` have no setter (embedded as constants) and
return exactly the strings that `create` installs as defaults when the
corresponding option is omitted. -/
theorem default_getters_match_create_defaults :
    BatchRendererFactory.defaultVertexSrc = defaultVertex
    ∧ BatchRendererFactory.defaultFragmentTemplate = defaultFragment
    ∧ ∀ o : Option CreateOptions,
        (optVertex o = JSProp.absent →
          (BatchRendererFactory.create o).vertex = some BatchRendererFactory.defaultVertexSrc)
        ∧ (optFragment o = JSProp.absent →
          (BatchRendererFactory.create o).fragment = some BatchRendererFactory.defaultFragmentTemplate) := by
  refine ⟨rfl, rfl, fun o => ⟨?_, ?_⟩⟩ <;>
    (intro h; simp [BatchRendererFactory.create, h, jsAssign,
      BatchRendererFactory.defaultVertexSrc, BatchRendererFactory.defaultFragmentTemplate])

/-- Witness for C4 at the omitted options object. -/
theorem default_getters_match_create_defaults_witness :
    (BatchRendererFactory.create none).vertex = some BatchRendererFactory.defaultVertexSrc
    ∧ (BatchRendererFactory.create none).fragment = some BatchRendererFactory.defaultFragmentTemplate :=
  ⟨(default_getters_match_create_defaults.2.2 none).1 rfl,
   (default_getters_match_create_defaults.2.2 none).2 rfl⟩

/-- Claim C9: a key present with value `undefined` overrides its
default: the returned constructor closes over `undefined` (`none`) for
that setting, by `Object.assign` override semantics. -/
theorem undefined_option_overrides_default (c : CreateOptions) :
    (c.vertex = JSProp.undef → (BatchRendererFactory.create (some c)).vertex = none)
    ∧ (c.fragment = JSProp.undef → (BatchRendererFactory.create (some c)).fragment = none)
    ∧ (c.vertexSize = JSProp.undef → (BatchRendererFactory.create (some c)).vertexSize = none)
    ∧ (c.geometryClass = JSProp.undef → (BatchRendererFactory.create (some c)).geometryClass = none) := by
  refine ⟨?_, ?_, ?_, ?_⟩ <;>
    (intro h; simp [BatchRendererFactory.create, optVertex, optFragment, optVertexSize,
      optGeometryClass, h, jsAssign])

/-- Witness for C9 at an options object whose every key is present with
value `undefined`. -/
theorem undefined_option_overrides_default_witness :
    (BatchRendererFactory.create (some { vertex := JSProp.undef, fragment := JSProp.undef, vertexSize := JSProp.undef, geometryClass := JSProp.undef })).vertex = none
    ∧ (BatchRendererFactory.create (some { vertex := JSProp.undef, fragment := JSProp.undef, vertexSize := JSProp.undef, geometryClass := JSProp.undef })).vertexSize = none :=
  ⟨(undefined_option_overrides_default _).1 rfl,
   (undefined_option_overrides_default _).2.2.1 rfl⟩

/-- Claim C10: the exported `BatchRenderer` is exactly
`BatchRendererFactory.create()` with no argument, its configuration is
the documented defaults, and omitting the options object behaves
identically to passing an empty options object. -/
theorem batchRenderer_is_default_create :
    BatchRenderer = BatchRendererFactory.create none
    ∧ BatchRendererFactory.create none
        = BatchRendererFactory.create (some { vertex := JSProp.absent, fragment := JSProp.absent, vertexSize := JSProp.absent, geometryClass := JSProp.absent })
    ∧ BatchRenderer.vertex = some defaultVertex
    ∧ BatchRenderer.fragment = some defaultFragment
    ∧ BatchRenderer.vertexSize = some 6
    ∧ BatchRenderer.geometryClass = some GeometryCls.batchGeometry :=
  ⟨rfl, rfl, rfl, rfl, rfl, rfl⟩

/-- Configuration errors, fatal at factory/construction time per the
spec: a `vertexSize` that does not match the stride of the paired
geometry layout, or a fragment template lacking a required placeholder. -/
inductive ConfigError where
  | vertexSizeMismatch
  | missingPlaceholder
deriving DecidableEq

/-- A fully wired batch renderer engine instance, as produced by
invoking the returned constructor with a renderer handle: the
configuration fields injected by the constructor body (lines 54-60) and
the shader source expanded for the device. -/
structure Instance where
  vertexSrc : Option String
  fragTemplate : Option FragTemplate
  shaderSrc : Option String
  geometryClass : Option GeometryCls
  vertexSize : Option Nat
deriving DecidableEq

/-- Whether the constructor's `vertexSize` disagrees with the stride of
its geometry layout (checked only when both are defined). -/
def vsMismatch (ct : BatchPluginCtor) : Bool :=
  match ct.vertexSize, ct.geometryClass with
  | some vs, some g => vs != strideOf g
  | _, _ => false

/-- Whether the constructor's fragment template lacks one of the two
required placeholder tokens (checked only when the template is
defined). -/
def fragLacksPh (ct : BatchPluginCtor) : Bool :=
  match ct.fragment with
  | some f => !(f.contains Tok.countPh && f.contains Tok.loopPh)
  | none => false

/-- Modelled from the spec: invoking the constructor returned by
`create` with a renderer handle.  The constructor body in the source
(lines 54-60) calls `BaseBatchRenderer.call(this, renderer)` and builds
`new BatchShaderGenerator(vertex, fragment)`; both modules are absent
from the given sources, so their construction-time behaviour follows
the spec: configuration errors (mismatched `vertexSize` vs. layout
stride, missing template placeholders) are signaled immediately, and
the fragment template is expanded against the device's actual
`maxTextureUnits`, queried at construction time. -/
def constructInstance (ct : BatchPluginCtor) (r : Renderer) : Except ConfigError Instance :=
  if vsMismatch ct then Except.error ConfigError.vertexSizeMismatch
  else if fragLacksPh ct then Except.error ConfigError.missingPlaceholder
  else Except.ok
    { vertexSrc := ct.vertex
    , fragTemplate := ct.fragment
    , shaderSrc := ct.fragment.map (fun f => expand f r.maxTextureUnits)
    , geometryClass := ct.geometryClass
    , vertexSize := ct.vertexSize }

/-- Inversion helper: a successful construction returns exactly the
record built from the constructor's configuration and the renderer. -/
theorem constructInstance_ok_inv (ct : BatchPluginCtor) (r : Renderer) (i : Instance)
    (h : constructInstance ct r = Except.ok i) :
    i = { vertexSrc := ct.vertex
        , fragTemplate := ct.fragment
        , shaderSrc := ct.fragment.map (fun f => expand f r.maxTextureUnits)
        , geometryClass := ct.geometryClass
        , vertexSize := ct.vertexSize } := by
  unfold constructInstance at h
  by_cases h1 : vsMismatch ct
  · simp [h1] at h
  · by_cases h2 : fragLacksPh ct
    · simp [h1, h2] at h
    · simp [h1, h2] at h
      exact h.symm

/-- Claim C5: instances are non-interfering across `create` calls:
creating another constructor first changes neither the shared prototype
state nor the constructor `create` returns for a given configuration,
and every configuration field observed on an instance is determined
solely by the options passed to the `create` call that produced its
constructor. -/
theorem create_calls_independent (o1 o2 : Option CreateOptions) (w : World)
    (r : Renderer) (i : Instance)
    (h : constructInstance (BatchRendererFactory.create o1) r = Except.ok i) :
    createW o1 ((createW o2 w).2) = createW o1 w
    ∧ i.vertexSrc = (BatchRendererFactory.create o1).vertex
    ∧ i.fragTemplate = (BatchRendererFactory.create o1).fragment
    ∧ i.geometryClass = (BatchRendererFactory.create o1).geometryClass
    ∧ i.vertexSize = (BatchRendererFactory.create o1).vertexSize := by
  have hi := constructInstance_ok_inv _ _ _ h
  subst hi
  exact ⟨rfl, rfl, rfl, rfl, rfl⟩

/-- Witness for C5: the default constructor next to a custom one, on a
device with 8 texture units. -/
theorem create_calls_independent_witness :
    createW none ((createW (some { vertex := JSProp.val "customV", fragment := JSProp.absent, vertexSize := JSProp.absent, geometryClass := JSProp.absent }) { basePrototypeProps := ["render", "flush"] }).2)
        = createW none { basePrototypeProps := ["render", "flush"] }
    ∧ ({ vertexSrc := some defaultVertex
       , fragTemplate := some defaultFragment
       , shaderSrc := some (expand defaultFragment 8)
       , geometryClass := some GeometryCls.batchGeometry
       , vertexSize := some 6 } : Instance).vertexSrc = (BatchRendererFactory.create none).vertex
    ∧ ({ vertexSrc := some defaultVertex
       , fragTemplate := some defaultFragment
       , shaderSrc := some (expand defaultFragment 8)
       , geometryClass := some GeometryCls.batchGeometry
       , vertexSize := some 6 } : Instance).fragTemplate = (BatchRendererFactory.create none).fragment
    ∧ ({ vertexSrc := some defaultVertex
       , fragTemplate := some defaultFragment
       , shaderSrc := some (expand defaultFragment 8)
       , geometryClass := some GeometryCls.batchGeometry
       , vertexSize := some 6 } : Instance).geometryClass = (BatchRendererFactory.create none).geometryClass
    ∧ ({ vertexSrc := some defaultVertex
       , fragTemplate := some defaultFragment
       , shaderSrc := some (expand defaultFragment 8)
       , geometryClass := some GeometryCls.batchGeometry
       , vertexSize := some 6 } : Instance).vertexSize = (BatchRendererFactory.create none).vertexSize :=
  create_calls_independent none
    (some { vertex := JSProp.val "customV", fragment := JSProp.absent, vertexSize := JSProp.absent, geometryClass := JSProp.absent })
    { basePrototypeProps := ["render", "flush"] }
    { maxTextureUnits := 8 } _ rfl

/-- Counterexample to claim C6 as stated: the constructors returned by
two different calls to `create` do not have distinct prototype objects,
and each one IS the base renderer's own prototype object: line 62
(`BatchPlugin.prototype = BaseBatchRenderer.prototype`) aliases the
shared prototype instead of copying it. -/
theorem create_prototype_not_distinct :
    (BatchRendererFactory.create none).prototypeRef = ProtoRef.baseBatchRendererProto
    ∧ (BatchRendererFactory.create (some { vertex := JSProp.absent, fragment := JSProp.absent, vertexSize := JSProp.val 12, geometryClass := JSProp.val (GeometryCls.custom 12) })).prototypeRef
        = (BatchRendererFactory.create none).prototypeRef :=
  ⟨rfl, rfl⟩

/-- Claim C6 (amended): every constructor returned by `create` shares
the base renderer's prototype object by reference — all of them have
the identical prototype object, namely `BaseBatchRenderer.prototype`
itself — configuration fields are injected per instance in the
constructor body, and no call to `create` mutates the shared base
prototype. -/
theorem create_shares_base_prototype (o : Option CreateOptions) (w : World) :
    (createW o w).1.prototypeRef = ProtoRef.baseBatchRendererProto
    ∧ (createW o w).2 = w :=
  ⟨rfl, rfl⟩

/-- Claim C7: a `vertexSize` that does not match the stride of the
paired geometry layout is fatal at construction time: for every
mismatched configuration, invoking the returned constructor signals a
configuration error, before any render call can observe the instance. -/
theorem vertexSize_mismatch_fatal (o : Option CreateOptions) (r : Renderer)
    (vs : Nat) (g : GeometryCls)
    (hvs : (BatchRendererFactory.create o).vertexSize = some vs)
    (hg : (BatchRendererFactory.create o).geometryClass = some g)
    (hne : vs ≠ strideOf g) :
    constructInstance (BatchRendererFactory.create o) r
      = Except.error ConfigError.vertexSizeMismatch := by
  have hm : vsMismatch (BatchRendererFactory.create o) = true := by
    unfold vsMismatch
    rw [hvs, hg]
    simp [bne_iff_ne, hne]
  unfold constructInstance
  simp [hm]

/-- Witness for C7: `vertexSize` 7 against the standard layout of
stride 6 fails at construction. -/
theorem vertexSize_mismatch_fatal_witness :
    constructInstance (BatchRendererFactory.create (some { vertex := JSProp.absent, fragment := JSProp.absent, vertexSize := JSProp.val 7, geometryClass := JSProp.absent })) { maxTextureUnits := 4 }
      = Except.error ConfigError.vertexSizeMismatch :=
  vertexSize_mismatch_fatal
    (some { vertex := JSProp.absent, fragment := JSProp.absent, vertexSize := JSProp.val 7, geometryClass := JSProp.absent })
    { maxTextureUnits := 4 } 7 GeometryCls.batchGeometry rfl rfl (by decide)

/-- Claim C8: `create` performs no template expansion and consults no
device — the constructor it returns stores the configured fragment
template verbatim (its value is a function of the options alone, as
`create` takes no renderer) — and the template is expanded against the
device's actual `maxTextureUnits` only when the constructor is invoked
with a renderer handle. -/
theorem expansion_deferred_to_construction (o : Option CreateOptions) (r : Renderer)
    (i : Instance)
    (h : constructInstance (BatchRendererFactory.create o) r = Except.ok i) :
    i.fragTemplate = (BatchRendererFactory.create o).fragment
    ∧ i.shaderSrc
        = ((BatchRendererFactory.create o).fragment).map (fun f => expand f r.maxTextureUnits)
    ∧ (∀ f, optFragment o = JSProp.val f → (BatchRendererFactory.create o).fragment = some f)
    ∧ (optFragment o = JSProp.absent → (BatchRendererFactory.create o).fragment = some defaultFragment) := by
  have hi := constructInstance_ok_inv _ _ _ h
  subst hi
  refine ⟨rfl, rfl, ?_, ?_⟩
  · intro f hf
    simp [BatchRendererFactory.create, hf, jsAssign]
  · intro hf
    simp [BatchRendererFactory.create, hf, jsAssign]

/-- Witness for C8: the default constructor on a device with 2 texture
units expands the default template for 2 units at construction. -/
theorem expansion_deferred_to_construction_witness :
    ({ vertexSrc := some defaultVertex
     , fragTemplate := some defaultFragment
     , shaderSrc := some (expand defaultFragment 2)
     , geometryClass := some GeometryCls.batchGeometry
     , vertexSize := some 6 } : Instance).shaderSrc
      = ((BatchRendererFactory.create none).fragment).map (fun f => expand f 2) :=
  (expansion_deferred_to_construction none { maxTextureUnits := 2 } _ rfl).2.1

/-- Concatenation distributes over list append. -/
theorem strConcat_append (a b : List String) :
    strConcat (a ++ b) = strConcat a ++ strConcat b := by
  induction a with
  | nil => simp [strConcat, String.empty_append]
  | cons s rest ih => simp [strConcat, ih, String.append_assoc]

/-- Expanding a placeholder-free segment leaves its literal text
unchanged, for every texture-unit count. -/
theorem expand_all_lit (k : Nat) (tpl : FragTemplate)
    (h : ∀ t ∈ tpl, ∃ s, t = Tok.lit s) :
    strConcat (tpl.map (expandTok k)) = litText tpl := by
  induction tpl with
  | nil => rfl
  | cons t rest ih =>
    obtain ⟨s, hs⟩ := h t (List.mem_cons_self t rest)
    subst hs
    have hrest : ∀ t ∈ rest, ∃ s, t = Tok.lit s :=
      fun t ht => h t (List.mem_cons_of_mem _ ht)
    show expandTok k (Tok.lit s) ++ strConcat (rest.map (expandTok k))
      = litText (Tok.lit s :: rest)
    rw [ih hrest]
    simp [litText, strConcat, expandTok]

/-- The number of occurrences of a token in a template. -/
def phCount (tpl : FragTemplate) (x : Tok) : Nat :=
  (tpl.filter (fun t => decide (t = x))).length

/-- A token that is neither placeholder is a literal segment. -/
theorem tok_is_lit (t : Tok) (h1 : ¬ t = Tok.countPh) (h2 : ¬ t = Tok.loopPh) :
    ∃ s, t = Tok.lit s := by
  cases t with
  | lit s => exact ⟨s, rfl⟩
  | countPh => exact absurd rfl h1
  | loopPh => exact absurd rfl h2

/-- Occurrence counting, one step. -/
theorem phCount_cons (t : Tok) (rest : FragTemplate) (x : Tok) :
    phCount (t :: rest) x = (if t = x then 1 else 0) + phCount rest x := by
  by_cases h : t = x
  · simp [phCount, List.filter_cons, h, Nat.add_comm]
  · simp [phCount, List.filter_cons, h]

/-- A token occurs zero times exactly when no element equals it. -/
theorem phCount_eq_zero (l : FragTemplate) (x : Tok) :
    phCount l x = 0 ↔ ∀ u ∈ l, ¬ u = x := by
  induction l with
  | nil => simp [phCount]
  | cons t rest ih =>
    rw [phCount_cons]
    by_cases h : t = x
    · subst h
      rw [if_pos rfl]
      constructor
      · intro hz
        exact absurd hz (by omega)
      · intro hall
        exact absurd rfl (hall t (List.mem_cons_self t rest))
    · rw [if_neg h, Nat.zero_add, ih]
      constructor
      · intro hall u hu
        rcases List.mem_cons.mp hu with rfl | hu2
        · exact h
        · exact hall u hu2
      · intro hall u hu
        exact hall u (List.mem_cons_of_mem _ hu)

/-- A template containing token `a` exactly once and token `b` not at
all splits around that one `a`, the two sides free of both tokens. -/
theorem single_ph_decomp (a b : Tok)
    (hlit : ∀ t : Tok, ¬ t = a → ¬ t = b → ∃ s, t = Tok.lit s) :
    ∀ ts : FragTemplate, phCount ts a = 1 → phCount ts b = 0 →
      ∃ mid post, (∀ t ∈ mid, ∃ s, t = Tok.lit s) ∧ (∀ t ∈ post, ∃ s, t = Tok.lit s)
        ∧ ts = mid ++ a :: post := by
  intro ts
  induction ts with
  | nil =>
    intro h1 _
    simp [phCount] at h1
  | cons t rest ih =>
    intro h1 h2
    rw [phCount_cons] at h1 h2
    by_cases hta : t = a
    · subst hta
      rw [if_pos rfl] at h1
      have hra : phCount rest t = 0 := by omega
      have htb : ¬ t = b := by
        intro hb
        rw [if_pos hb] at h2
        omega
      rw [if_neg htb, Nat.zero_add] at h2
      refine ⟨[], rest, by simp, ?_, by simp⟩
      intro u hu
      exact hlit u ((phCount_eq_zero rest t).mp hra u hu) ((phCount_eq_zero rest b).mp h2 u hu)
    · have htb : ¬ t = b := by
        intro hb
        rw [if_pos hb] at h2
        omega
      rw [if_neg hta, Nat.zero_add] at h1
      rw [if_neg htb, Nat.zero_add] at h2
      obtain ⟨mid, post, hmid, hpost, heq⟩ := ih h1 h2
      refine ⟨t :: mid, post, ?_, hpost, by rw [heq]; rfl⟩
      intro u hu
      rcases List.mem_cons.mp hu with rfl | hu2
      · exact hlit _ hta htb
      · exact hmid u hu2

/-- A template containing each placeholder exactly once splits into
three placeholder-free segments around the two placeholders, in one of
the two possible orders. -/
theorem two_ph_decomp : ∀ tpl : FragTemplate,
    phCount tpl Tok.countPh = 1 → phCount tpl Tok.loopPh = 1 →
    ∃ pre mid post,
      (∀ t ∈ pre, ∃ s, t = Tok.lit s) ∧ (∀ t ∈ mid, ∃ s, t = Tok.lit s)
        ∧ (∀ t ∈ post, ∃ s, t = Tok.lit s)
        ∧ (tpl = pre ++ Tok.countPh :: (mid ++ Tok.loopPh :: post)
            ∨ tpl = pre ++ Tok.loopPh :: (mid ++ Tok.countPh :: post)) := by
  intro tpl
  induction tpl with
  | nil =>
    intro h1 _
    simp [phCount] at h1
  | cons t rest ih =>
    intro h1 h2
    rw [phCount_cons] at h1 h2
    by_cases hc : t = Tok.countPh
    · subst hc
      rw [if_pos rfl] at h1
      rw [if_neg (by decide), Nat.zero_add] at h2
      have hr1 : phCount rest Tok.countPh = 0 := by omega
      obtain ⟨mid, post, hmid, hpost, heq⟩ :=
        single_ph_decomp Tok.loopPh Tok.countPh (fun u hA hB => tok_is_lit u hB hA) rest h2 hr1
      exact ⟨[], mid, post, by simp, hmid, hpost, Or.inl (by rw [heq]; rfl)⟩
    · by_cases hl : t = Tok.loopPh
      · subst hl
        rw [if_pos rfl] at h2
        rw [if_neg (by decide), Nat.zero_add] at h1
        have hr2 : phCount rest Tok.loopPh = 0 := by omega
        obtain ⟨mid, post, hmid, hpost, heq⟩ :=
          single_ph_decomp Tok.countPh Tok.loopPh tok_is_lit rest h1 hr2
        exact ⟨[], mid, post, by simp, hmid, hpost, Or.inr (by rw [heq]; rfl)⟩
      · rw [if_neg hc, Nat.zero_add] at h1
        rw [if_neg hl, Nat.zero_add] at h2
        obtain ⟨pre, mid, post, hpre, hmid, hpost, hd⟩ := ih h1 h2
        refine ⟨t :: pre, mid, post, ?_, hmid, hpost, ?_⟩
        · intro u hu
          rcases List.mem_cons.mp hu with rfl | hu2
          · exact tok_is_lit _ hc hl
          · exact hpre u hu2
        · rcases hd with h | h
          · exact Or.inl (by rw [h]; rfl)
          · exact Or.inr (by rw [h]; rfl)

/-- Expansion of a template decomposed around two tokens: the
placeholder-free segments keep their literal text and each token is
expanded in place. -/
theorem expand_decomp (pre mid post : FragTemplate) (a b : Tok) (k : Nat)
    (hpre : ∀ t ∈ pre, ∃ s, t = Tok.lit s)
    (hmid : ∀ t ∈ mid, ∃ s, t = Tok.lit s)
    (hpost : ∀ t ∈ post, ∃ s, t = Tok.lit s) :
    expand (pre ++ a :: (mid ++ b :: post)) k
      = litText pre ++ (expandTok k a ++ (litText mid
          ++ (expandTok k b ++ litText post))) := by
  unfold expand
  rw [List.map_append, strConcat_append, List.map_cons, List.map_append, List.map_cons]
  rw [expand_all_lit k pre hpre]
  show litText pre ++ (expandTok k a ++ strConcat _) = _
  rw [strConcat_append]
  show litText pre ++ (expandTok k a
    ++ (strConcat (mid.map (expandTok k)) ++ (expandTok k b ++ strConcat (post.map (expandTok k))))) = _
  rw [expand_all_lit k mid hmid, expand_all_lit k post hpost]

/-- Claim C3: on every template containing exactly one count
placeholder and exactly one loop placeholder — in either order — and
any k >= 1, `expand` keeps the placeholder-free segments verbatim,
substitutes the decimal literal of k for the count placeholder and
exactly k repetitions of the per-unit conditional block for the loop
placeholder, the i-th specialized to unit index i, in ascending order
0 .. k-1. -/
theorem expand_replaces_placeholders (tpl : FragTemplate) (k : Nat)
    (hcount : phCount tpl Tok.countPh = 1)
    (hloop : phCount tpl Tok.loopPh = 1)
    (hk : 1 ≤ k) :
    (∃ pre mid post,
      (∀ t ∈ pre, ∃ s, t = Tok.lit s) ∧ (∀ t ∈ mid, ∃ s, t = Tok.lit s)
        ∧ (∀ t ∈ post, ∃ s, t = Tok.lit s)
        ∧ ((tpl = pre ++ Tok.countPh :: (mid ++ Tok.loopPh :: post)
              ∧ expand tpl k = litText pre ++ (toString k ++ (litText mid
                  ++ (strConcat ((List.range k).map perUnitBlock) ++ litText post))))
          ∨ (tpl = pre ++ Tok.loopPh :: (mid ++ Tok.countPh :: post)
              ∧ expand tpl k = litText pre ++ (strConcat ((List.range k).map perUnitBlock)
                  ++ (litText mid ++ (toString k ++ litText post))))))
    ∧ ((List.range k).map perUnitBlock).length = k
    ∧ ∀ i, i < k → ((List.range k).map perUnitBlock)[i]? = some (perUnitBlock i) := by
  refine ⟨?_, by simp, fun i hi => by simp [List.getElem?_map, List.getElem?_range hi]⟩
  obtain ⟨pre, mid, post, hpre, hmid, hpost, hd⟩ := two_ph_decomp tpl hcount hloop
  refine ⟨pre, mid, post, hpre, hmid, hpost, ?_⟩
  rcases hd with h | h
  · refine Or.inl ⟨h, ?_⟩
    rw [h, expand_decomp pre mid post Tok.countPh Tok.loopPh k hpre hmid hpost]
    rfl
  · refine Or.inr ⟨h, ?_⟩
    rw [h, expand_decomp pre mid post Tok.loopPh Tok.countPh k hpre hmid hpost]
    rfl

/-- Witness for C3 at a concrete template with the loop placeholder
before the count placeholder, expanded for two texture units. -/
theorem expand_replaces_placeholders_witness :
    (∃ pre mid post,
      (∀ t ∈ pre, ∃ s, t = Tok.lit s) ∧ (∀ t ∈ mid, ∃ s, t = Tok.lit s)
        ∧ (∀ t ∈ post, ∃ s, t = Tok.lit s)
        ∧ (([Tok.lit "A", Tok.loopPh, Tok.lit "B", Tok.countPh, Tok.lit "C"]
                = pre ++ Tok.countPh :: (mid ++ Tok.loopPh :: post)
              ∧ expand [Tok.lit "A", Tok.loopPh, Tok.lit "B", Tok.countPh, Tok.lit "C"] 2
                = litText pre ++ (toString 2 ++ (litText mid
                    ++ (strConcat ((List.range 2).map perUnitBlock) ++ litText post))))
          ∨ ([Tok.lit "A", Tok.loopPh, Tok.lit "B", Tok.countPh, Tok.lit "C"]
                = pre ++ Tok.loopPh :: (mid ++ Tok.countPh :: post)
              ∧ expand [Tok.lit "A", Tok.loopPh, Tok.lit "B", Tok.countPh, Tok.lit "C"] 2
                = litText pre ++ (strConcat ((List.range 2).map perUnitBlock)
                    ++ (litText mid ++ (toString 2 ++ litText post))))))
    ∧ ((List.range 2).map perUnitBlock).length = 2
    ∧ ∀ i, i < 2 → ((List.range 2).map perUnitBlock)[i]? = some (perUnitBlock i) :=
  expand_replaces_placeholders
    [Tok.lit "A", Tok.loopPh, Tok.lit "B", Tok.countPh, Tok.lit "C"] 2
    (by decide) (by decide) (by decide)

/-- Modelled from the spec: a drawable object as the engine reads it —
a texture identifier stable for its lifetime, a vertex count (its
footprint in the shared geometry buffer), and a blend mode.  The
batching engine (`BatchRenderer.js`) is not among the given sources. -/
structure Drawable where
  texId : Nat
  vertexCount : Nat
  blendMode : Nat
deriving DecidableEq

/-- Modelled from the spec: the hard resource limits of one engine
instance — the device's simultaneous texture-unit budget and the
capacity of the shared geometry buffer, in vertices. -/
structure EngineCfg where
  maxTextureUnits : Nat
  bufferCapacity : Nat
deriving DecidableEq

/-- Modelled from the spec: a Batch Descriptor produced during a flush:
a contiguous sub-range of the accumulated objects and the texture slots
bound for it. -/
structure BatchDescriptor where
  objects : List Drawable
  textureSlots : List Nat
deriving DecidableEq

/-- Modelled from the spec: the mutable per-instance state of the Batch
Renderer Engine: the texture-unit slot table (texture ids, position =
slot index), the objects accumulated since the last flush, the write
position in the shared geometry buffer, and the descriptors emitted so
far, in emission order. -/
structure EngineState where
  slots : List Nat
  accumulated : List Drawable
  vertexFill : Nat
  emitted : List BatchDescriptor
deriving DecidableEq

/-- The engine state at the start of a render pass. -/
def initState : EngineState :=
  { slots := [], accumulated := [], vertexFill := 0, emitted := [] }

/-- Modelled from the spec: split the accumulated objects into maximal
runs of equal blend mode — a blend-mode change between consecutive
drawables forces a descriptor boundary, since one draw call has one
blend mode. -/
def blendRuns : List Drawable → List (List Drawable)
  | [] => []
  | d :: ds =>
    match blendRuns ds with
    | [] => [[d]]
    | [] :: rs => [d] :: rs
    | (e :: r) :: rs =>
      if d.blendMode = e.blendMode then (d :: e :: r) :: rs
      else [d] :: (e :: r) :: rs

/-- Modelled from the spec: a flush — a no-op on an empty accumulation,
otherwise it emits one descriptor per blend-mode run of the accumulated
objects, in order, and resets the slot table and the buffer write
position. -/
def flushState (st : EngineState) : EngineState :=
  if st.accumulated = [] then st
  else
    { slots := []
    , accumulated := []
    , vertexFill := 0
    , emitted := st.emitted ++ (blendRuns st.accumulated).map
        (fun run => { objects := run, textureSlots := st.slots }) }

/-- Modelled from the spec: accumulate one drawable — reuse its
texture's slot if bound, otherwise append a fresh slot — and append its
geometry after the current write position. -/
def stepAppend (st : EngineState) (d : Drawable) : EngineState :=
  { slots := if d.texId ∈ st.slots then st.slots else st.slots ++ [d.texId]
  , accumulated := st.accumulated ++ [d]
  , vertexFill := st.vertexFill + d.vertexCount
  , emitted := st.emitted }

/-- Modelled from the spec: `render(drawable)` — if the drawable's
texture is new and the slot table is full, or its vertices would
overflow the buffer, flush first; then accumulate the drawable. -/
def renderOne (cfg : EngineCfg) (st : EngineState) (d : Drawable) : EngineState :=
  stepAppend
    (if (d.texId ∉ st.slots ∧ cfg.maxTextureUnits ≤ st.slots.length)
        ∨ cfg.bufferCapacity < st.vertexFill + d.vertexCount
     then flushState st else st) d

/-- Modelled from the spec: a whole render pass — `render()` once per
drawable in draw order, terminated by the explicit end-of-pass
`flush()`. -/
def renderPass (cfg : EngineCfg) (ds : List Drawable) : EngineState :=
  flushState (ds.foldl (renderOne cfg) initState)

/-- Every object a state accounts for: the concatenated object ranges
of the emitted descriptors followed by the current accumulation. -/
def emitAll (st : EngineState) : List Drawable :=
  (st.emitted.map BatchDescriptor.objects).flatten ++ st.accumulated

/-- Splitting into blend-mode runs loses and reorders nothing. -/
theorem blendRuns_flatten (l : List Drawable) : (blendRuns l).flatten = l := by
  induction l with
  | nil => rfl
  | cons d ds ih =>
    simp only [blendRuns]
    cases h : blendRuns ds with
    | nil =>
      rw [h] at ih
      simp at ih
      simp [ih]
    | cons r rs =>
      cases r with
      | nil =>
        rw [h] at ih
        simp at ih ⊢
        exact ih
      | cons e t =>
        rw [h] at ih
        by_cases hb : d.blendMode = e.blendMode
        · simp [hb] at ih ⊢
          exact ih
        · simp [hb] at ih ⊢
          exact ih

/-- A flush moves the accumulation into emitted descriptors without
loss or reordering. -/
theorem emitAll_flushState (st : EngineState) :
    emitAll (flushState st) = emitAll st := by
  unfold flushState
  split
  · rfl
  · simp [emitAll, List.map_append, List.flatten_append, List.map_map]
    have hcomp : (BatchDescriptor.objects ∘ fun run =>
        ({ objects := run, textureSlots := st.slots } : BatchDescriptor)) = id := rfl
    rw [hcomp, List.map_id, blendRuns_flatten]

/-- Accumulating one drawable appends it to the accounted objects. -/
theorem emitAll_stepAppend (st : EngineState) (d : Drawable) :
    emitAll (stepAppend st d) = emitAll st ++ [d] := by
  simp [emitAll, stepAppend, List.append_assoc]

/-- `render` appends exactly its drawable to the accounted objects,
whether or not it forces a flush. -/
theorem emitAll_renderOne (cfg : EngineCfg) (st : EngineState) (d : Drawable) :
    emitAll (renderOne cfg st d) = emitAll st ++ [d] := by
  unfold renderOne
  split
  · rw [emitAll_stepAppend, emitAll_flushState]
  · rw [emitAll_stepAppend]

/-- Rendering a sequence appends it, in order, to the accounted
objects. -/
theorem emitAll_foldl (cfg : EngineCfg) (ds : List Drawable) :
    ∀ st : EngineState, emitAll (ds.foldl (renderOne cfg) st) = emitAll st ++ ds := by
  induction ds with
  | nil => intro st; simp
  | cons d rest ih =>
    intro st
    rw [List.foldl_cons, ih, emitAll_renderOne, List.append_assoc,
      List.singleton_append]

/-- After any flush nothing remains accumulated. -/
theorem accumulated_flushState (st : EngineState) :
    (flushState st).accumulated = [] := by
  unfold flushState
  split
  · assumption
  · rfl

/-- Claim C2: for every finite input sequence of drawables fed to
`render()` in draw order and terminated by `flush()`, the concatenation
of the object ranges of all emitted Batch Descriptors, in emission
order, equals the input sequence — for every texture-unit budget and
buffer capacity, hence regardless of texture assignments,
texture-unit-limit flushes, or buffer-capacity flushes. -/
theorem draw_order_preserved (cfg : EngineCfg) (ds : List Drawable) :
    (((renderPass cfg ds).emitted.map BatchDescriptor.objects)).flatten = ds := by
  have h1 : emitAll (renderPass cfg ds) = ds := by
    rw [renderPass, emitAll_flushState, emitAll_foldl]
    simp [emitAll, initState]
  have h2 := accumulated_flushState (ds.foldl (renderOne cfg) initState)
  unfold renderPass at h1 ⊢
  unfold emitAll at h1
  rw [h2, List.append_nil] at h1
  exact h1
